import Mathlib

/-!
Verification of the arsdk-ng UDP net transport
(`arsdk_transport_net.c`) and the transport-ID namespace
(`arsdk_transport_ids.h`) against its specification.

All machine integers are modelled as `Nat` / `Int`; `uint32_t`
arithmetic wraps explicitly modulo `U32 = 2 ^ 32`.
-/

/-- `ARSDK_FRAME_HEADER_SIZE` from `arsdk_transport_net.c`. -/
def ARSDK_FRAME_HEADER_SIZE : Nat := 7

/-- Modulus of `uint32_t` arithmetic. -/
def U32 : Nat := 4294967296

/-- Linux errno value for an interrupted call. -/
def EINTR : Int := 4

/-- Linux errno value for a non-blocking operation that would block. -/
def EAGAIN : Int := 11

/-- On Linux `EWOULDBLOCK` has the same value as `EAGAIN`. -/
def EWOULDBLOCK : Int := 11

/-- Linux errno value for an exhausted interface output queue. -/
def ENOBUFS : Int := 105

/-- Linux errno value for a broken pipe. -/
def EPIPE : Int := 32

/-- The `ARSDK_WOULD_BLOCK` macro: the errno is either `EAGAIN` or
`EWOULDBLOCK`. -/
def ARSDK_WOULD_BLOCK (e : Int) : Bool :=
  e == EAGAIN || e == EWOULDBLOCK

/-- `enum arsdk_link_status`: two-state link health indicator. -/
inductive LinkStatus where
  | ok : LinkStatus
  | ko : LinkStatus
deriving DecidableEq, Repr

/-- Reading byte `i` of the receive buffer (`rxbuf[i]`).  Entries are
`uint8_t`, hence reduced mod 256; an index past the modelled buffer
yields 0 (the C code never validly reaches that case). -/
def byteAt (rxbuf : List Nat) (i : Nat) : Nat :=
  (rxbuf.getD i 0) % 256

/-- The little-endian size decoding of `process_rxbuf`:
`headerbuf[3] | (headerbuf[4] << 8) | (headerbuf[5] << 16) |
 (headerbuf[6] << 24)`. -/
def sizeOfBytes (b3 b4 b5 b6 : Nat) : Nat :=
  b3 ||| (b4 <<< 8) ||| (b5 <<< 16) ||| (b6 <<< 24)

/-- One frame as forwarded to `arsdk_transport_recv_data`: the three
decoded header fields, the payload view (start offset in `rxbuf` and
length), and whether the data pointer passed to
`arsdk_transport_payload_init_with_data` was `NULL`. -/
structure Frame where
  type : Nat
  id : Nat
  seq : Nat
  payloadOff : Nat
  payloadLen : Nat
  dataNull : Bool
deriving DecidableEq, Repr

/-- How the `process_rxbuf` loop ended. -/
inductive RxResult where
  | ok : RxResult
  | truncatedHeader : RxResult
  | badFrame : RxResult
  | outOfFuel : RxResult
deriving DecidableEq, Repr

/-- The `while (rxoff < rxlen)` loop of `process_rxbuf`, with explicit
fuel (the C loop has no other bound).  `rxoff` and `size` are
`uint32_t`, so every offset computation wraps mod `U32`.  Returns the
frames forwarded to the parent transport, in order, and how the loop
ended; `outOfFuel` means the loop was still running after `fuel`
iterations. -/
def processRxbufLoop : Nat → List Nat → Nat → Nat → List Frame × RxResult
  | 0, _, _, _ => ([], RxResult.outOfFuel)
  | fuel + 1, rxbuf, rxlen, rxoff =>
    if rxoff < rxlen then
      if (rxoff + ARSDK_FRAME_HEADER_SIZE) % U32 > rxlen then
        ([], RxResult.truncatedHeader)
      else
        let size := sizeOfBytes (byteAt rxbuf (rxoff + 3))
            (byteAt rxbuf (rxoff + 4)) (byteAt rxbuf (rxoff + 5))
            (byteAt rxbuf (rxoff + 6))
        if size < ARSDK_FRAME_HEADER_SIZE ∨ (rxoff + size) % U32 > rxlen then
          ([], RxResult.badFrame)
        else
          let rxoff2 := (rxoff + ARSDK_FRAME_HEADER_SIZE) % U32
          let payloadlen := size - ARSDK_FRAME_HEADER_SIZE
          let frame : Frame :=
            { type := byteAt rxbuf rxoff
              id := byteAt rxbuf (rxoff + 1)
              seq := byteAt rxbuf (rxoff + 2)
              payloadOff := rxoff2
              payloadLen := payloadlen
              dataNull := payloadlen == 0 }
          let rest := processRxbufLoop fuel rxbuf rxlen ((rxoff2 + payloadlen) % U32)
          (frame :: rest.1, rest.2)
    else ([], RxResult.ok)

/-- `process_rxbuf(self, rxbuf, rxlen)`.  The fuel `rxlen + 1` covers
every terminating execution of the C loop (each iteration either
returns or advances the offset by at least 7 when no wrap occurs). -/
def process_rxbuf (rxbuf : List Nat) (rxlen : Nat) : List Frame × RxResult :=
  processRxbufLoop (rxlen + 1) rxbuf rxlen 0

/-- The bytes a forwarded payload view covers inside the receive
buffer. -/
def frameView (rxbuf : List Nat) (f : Frame) : List Nat :=
  (rxbuf.drop f.payloadOff).take f.payloadLen

theorem lor_shiftLeft_eq_add {k : Nat} :
    ∀ a b : Nat, a < 2 ^ k → a ||| (b <<< k) = a + b <<< k := by
  induction k with
  | zero =>
    intro a b ha
    interval_cases a
    simp [Nat.shiftLeft_eq]
  | succ k ih =>
    intro a b ha
    have hbit : Nat.bit (a.testBit 0) (a >>> 1) = a :=
      Nat.bit_testBit_zero_shiftRight_one a
    have hdiv : a >>> 1 < 2 ^ k := by
      have := Nat.shiftRight_one a
      omega
    have hb : b <<< (k + 1) = Nat.bit false (b <<< k) := by
      simp [Nat.bit, Nat.shiftLeft_eq, Nat.pow_succ]
      ring
    calc a ||| (b <<< (k + 1))
        = Nat.bit (a.testBit 0) (a >>> 1) ||| Nat.bit false (b <<< k) := by
          rw [hbit, hb]
      _ = Nat.bit (a.testBit 0 || false) ((a >>> 1) ||| (b <<< k)) :=
          Nat.lor_bit _ _ _ _
      _ = Nat.bit (a.testBit 0) ((a >>> 1) + b <<< k) := by
          rw [ih _ _ hdiv, Bool.or_false]
      _ = a + b <<< (k + 1) := by
          rw [Nat.bit_val, hb, Nat.bit_val]
          have hval : 2 * (a >>> 1) + (a.testBit 0).toNat = a := by
            have := Nat.bit_val (a.testBit 0) (a >>> 1)
            omega
          simp only [Bool.toNat_false]
          omega

theorem sizeOfBytes_eq_sum (b3 b4 b5 b6 : Nat) (h3 : b3 < 256)
    (h4 : b4 < 256) (h5 : b5 < 256) (h6 : b6 < 256) :
    sizeOfBytes b3 b4 b5 b6 =
      b3 + b4 * 256 + b5 * 65536 + b6 * 16777216 := by
  unfold sizeOfBytes
  have s8 : b4 <<< 8 = b4 * 256 := by rw [Nat.shiftLeft_eq]
  have s16 : b5 <<< 16 = b5 * 65536 := by rw [Nat.shiftLeft_eq]
  have s24 : b6 <<< 24 = b6 * 16777216 := by rw [Nat.shiftLeft_eq]
  have e1 : b3 ||| (b4 <<< 8) = b3 + b4 * 256 := by
    rw [lor_shiftLeft_eq_add b3 b4 (by norm_num [h3] : b3 < 2 ^ 8), s8]
  have e2 : b3 + b4 * 256 ||| (b5 <<< 16) = b3 + b4 * 256 + b5 * 65536 := by
    rw [lor_shiftLeft_eq_add _ b5 (by omega : b3 + b4 * 256 < 2 ^ 16), s16]
  have e3 : b3 + b4 * 256 + b5 * 65536 ||| (b6 <<< 24) =
      b3 + b4 * 256 + b5 * 65536 + b6 * 16777216 := by
    rw [lor_shiftLeft_eq_add _ b6
      (by omega : b3 + b4 * 256 + b5 * 65536 < 2 ^ 24), s24]
  rw [e1, e2, e3]

theorem sizeOfBytes_lt (b3 b4 b5 b6 : Nat) (h3 : b3 < 256)
    (h4 : b4 < 256) (h5 : b5 < 256) (h6 : b6 < 256) :
    sizeOfBytes b3 b4 b5 b6 < U32 := by
  rw [sizeOfBytes_eq_sum b3 b4 b5 b6 h3 h4 h5 h6]
  unfold U32
  omega

/-! ## Transport-ID namespace (`arsdk_transport_ids.h`) -/

/-- `ARSDK_TRANSPORT_ID_MAX`: size of the default ID namespace. -/
def ARSDK_TRANSPORT_ID_MAX : Nat := 256

/-- `ARSDK_TRANSPORT_ID_MAX_BLE`: size of the constrained namespace. -/
def ARSDK_TRANSPORT_ID_MAX_BLE : Nat := 32

/-- `ARSDK_TRANSPORT_ID_INVALID`. -/
def ARSDK_TRANSPORT_ID_INVALID : Nat := 255

/-- `ARSDK_TRANSPORT_ID_PING`. -/
def ARSDK_TRANSPORT_ID_PING : Nat := 0

/-- `ARSDK_TRANSPORT_ID_PONG`. -/
def ARSDK_TRANSPORT_ID_PONG : Nat := 1

/-- `ARSDK_TRANSPORT_ID_C2D_CMD_NOACK`. -/
def ARSDK_TRANSPORT_ID_C2D_CMD_NOACK : Nat := 10

/-- `ARSDK_TRANSPORT_ID_C2D_CMD_WITHACK`. -/
def ARSDK_TRANSPORT_ID_C2D_CMD_WITHACK : Nat := 11

/-- `ARSDK_TRANSPORT_ID_C2D_CMD_HIGHPRIO` (name shortened). -/
def ARSDK_TRANSPORT_ID_C2D_CMD_HIGHPRI : Nat := 12

/-- `ARSDK_TRANSPORT_ID_D2C_CMD_NOACK`. -/
def ARSDK_TRANSPORT_ID_D2C_CMD_NOACK : Nat := 127

/-- `ARSDK_TRANSPORT_ID_D2C_CMD_WITHACK`. -/
def ARSDK_TRANSPORT_ID_D2C_CMD_WITHACK : Nat := 126

/-- `ARSDK_TRANSPORT_ID_D2C_CMD_NOACK_BLE`. -/
def ARSDK_TRANSPORT_ID_D2C_CMD_NOACK_BLE : Nat := 15

/-- `ARSDK_TRANSPORT_ID_D2C_CMD_WITHACK_BLE`. -/
def ARSDK_TRANSPORT_ID_D2C_CMD_WITHACK_BLE : Nat := 14

/-- `ARSDK_TRANSPORT_ID_ACKOFF = ARSDK_TRANSPORT_ID_MAX / 2`. -/
def ARSDK_TRANSPORT_ID_ACKOFF : Nat := ARSDK_TRANSPORT_ID_MAX / 2

/-- `ARSDK_TRANSPORT_ID_ACKOFF_BLE = ARSDK_TRANSPORT_ID_MAX_BLE / 2`. -/
def ARSDK_TRANSPORT_ID_ACKOFF_BLE : Nat := ARSDK_TRANSPORT_ID_MAX_BLE / 2

/-- `ARSDK_TRANSPORT_ID_C2D_CMD_ACK`. -/
def ARSDK_TRANSPORT_ID_C2D_CMD_ACK : Nat :=
  ARSDK_TRANSPORT_ID_D2C_CMD_WITHACK + ARSDK_TRANSPORT_ID_ACKOFF

/-- `ARSDK_TRANSPORT_ID_C2D_CMD_ACK_BLE`. -/
def ARSDK_TRANSPORT_ID_C2D_CMD_ACK_BLE : Nat :=
  ARSDK_TRANSPORT_ID_D2C_CMD_WITHACK_BLE + ARSDK_TRANSPORT_ID_ACKOFF_BLE

/-- `ARSDK_TRANSPORT_ID_D2C_CMD_ACK`. -/
def ARSDK_TRANSPORT_ID_D2C_CMD_ACK : Nat :=
  ARSDK_TRANSPORT_ID_C2D_CMD_WITHACK + ARSDK_TRANSPORT_ID_ACKOFF

/-- `ARSDK_TRANSPORT_ID_D2C_CMD_HIGHPRIO_ACK` (name shortened). -/
def ARSDK_TRANSPORT_ID_D2C_CMD_HIGHPRI_ACK : Nat :=
  ARSDK_TRANSPORT_ID_C2D_CMD_HIGHPRI + ARSDK_TRANSPORT_ID_ACKOFF

/-- `ARSDK_TRANSPORT_ID_D2C_CMD_ACK_BLE`. -/
def ARSDK_TRANSPORT_ID_D2C_CMD_ACK_BLE : Nat :=
  ARSDK_TRANSPORT_ID_C2D_CMD_WITHACK + ARSDK_TRANSPORT_ID_ACKOFF_BLE

/-- `ARSDK_TRANSPORT_ID_D2C_CMD_HIGHPRIO_ACK_BLE` (name shortened). -/
def ARSDK_TRANSPORT_ID_D2C_CMD_HIGHPRI_ACK_BLE : Nat :=
  ARSDK_TRANSPORT_ID_C2D_CMD_HIGHPRI + ARSDK_TRANSPORT_ID_ACKOFF_BLE

/-- The primary (non-acknowledgment) transport IDs named by the spec:
ping/pong, the controller-to-device commands, the device-to-controller
commands, and the constrained (BLE) device-to-controller commands. -/
def primaryTransportIds : List Nat :=
  [ARSDK_TRANSPORT_ID_PING, ARSDK_TRANSPORT_ID_PONG,
   ARSDK_TRANSPORT_ID_C2D_CMD_NOACK, ARSDK_TRANSPORT_ID_C2D_CMD_WITHACK,
   ARSDK_TRANSPORT_ID_C2D_CMD_HIGHPRI,
   ARSDK_TRANSPORT_ID_D2C_CMD_WITHACK, ARSDK_TRANSPORT_ID_D2C_CMD_NOACK,
   ARSDK_TRANSPORT_ID_D2C_CMD_WITHACK_BLE,
   ARSDK_TRANSPORT_ID_D2C_CMD_NOACK_BLE]

/-- All acknowledgment transport IDs defined in the header. -/
def ackTransportIds : List Nat :=
  [ARSDK_TRANSPORT_ID_C2D_CMD_ACK, ARSDK_TRANSPORT_ID_C2D_CMD_ACK_BLE,
   ARSDK_TRANSPORT_ID_D2C_CMD_ACK, ARSDK_TRANSPORT_ID_D2C_CMD_HIGHPRI_ACK,
   ARSDK_TRANSPORT_ID_D2C_CMD_ACK_BLE,
   ARSDK_TRANSPORT_ID_D2C_CMD_HIGHPRI_ACK_BLE]

/-! ## Send path (`arsdk_transport_net_send_data`, `socket_write`) -/

/-- The 7-byte primary header built by `arsdk_transport_net_send_data`:
`headerbuf[0..2] = type, id, seq` and `headerbuf[3..6]` the
little-endian bytes of the `uint32_t` frame size (`& 0xff` is `% 256`,
`>> 8k` is division by `256 ^ k`). -/
def send_headerbuf (t i s size : Nat) : List Nat :=
  [t % 256, i % 256, s % 256,
   size % 256, size / 256 % 256, size / 65536 % 256, size / 16777216 % 256]

/-- The computed `uint32_t` frame size of `send_data`:
`size = ARSDK_FRAME_HEADER_SIZE + extra_hdrlen + payload->len`. -/
def send_frame_size (extraHdrLen payloadLen : Nat) : Nat :=
  (ARSDK_FRAME_HEADER_SIZE + extraHdrLen + payloadLen) % U32

/-- The byte stream handed to `socket_write` by `send_data`: the iov
segments (primary header, optional extra header, optional payload)
concatenated in order. -/
def arsdk_transport_net_send_wire (t i s : Nat)
    (extraHdr payload : List Nat) : List Nat :=
  send_headerbuf t i s (send_frame_size extraHdr.length payload.length) ++
    extraHdr ++ payload

/-- Which log statement the tail of `send_data` emitted, if any. -/
inductive SendLog where
  | quiet : SendLog
  | warnDrop : SendLog
  | errSendmsg : SendLog
  | errShortWrite : SendLog
  | infoRecovery : SendLog
deriving DecidableEq, Repr

/-- Observable outcome of one `send_data` call: the returned code, the
link status afterwards, the `tx_fail` counter afterwards, and what was
logged. -/
structure SendOutcome where
  res : Int
  link : LinkStatus
  txFail : Nat
  log : SendLog
deriving DecidableEq, Repr

/-- The result handling at the end of `arsdk_transport_net_send_data`
(after `socket_write` returned `writelen`), as a function of the write
result, the computed frame `size`, the current link status and the
current `tx_fail` counter. -/
def send_result_handling (writelen : Int) (size : Nat)
    (link : LinkStatus) (txFail : Nat) : SendOutcome :=
  if writelen < 0 then
    if writelen = -ENOBUFS then
      { res := 0, link := link, txFail := txFail + 1, log := SendLog.warnDrop }
    else if ARSDK_WOULD_BLOCK (-writelen) = false ∧ link = LinkStatus.ok then
      { res := writelen, link := LinkStatus.ko, txFail := txFail,
        log := SendLog.errSendmsg }
    else
      { res := writelen, link := link, txFail := txFail, log := SendLog.quiet }
  else if writelen.toNat % U32 ≠ size then
    { res := -EAGAIN, link := link, txFail := txFail,
      log := SendLog.errShortWrite }
  else if txFail > 0 then
    { res := 0, link := link, txFail := 0, log := SendLog.infoRecovery }
  else
    { res := 0, link := link, txFail := txFail, log := SendLog.quiet }

/-- `arsdk_transport_net_send_data` with the underlying write outcome
(`writelen`, what `socket_write` returned) supplied as a parameter:
checks the started/open-socket precondition, computes the frame size
from the extra-header and payload lengths, then runs the result
handling. -/
def arsdk_transport_net_send_data (started : Bool) (fdValid : Bool)
    (extraHdrLen payloadLen : Nat) (writelen : Int)
    (link : LinkStatus) (txFail : Nat) : SendOutcome :=
  if started = false ∨ fdValid = false then
    { res := -EPIPE, link := link, txFail := txFail, log := SendLog.quiet }
  else
    send_result_handling writelen (send_frame_size extraHdrLen payloadLen)
      link txFail

/-! ## Read path (`socket_read`) -/

/-- The `do { readlen = recvfrom(...); } while (readlen < 0 && errno ==
-EINTR);` loop of `socket_read`, driven by a trace of successive
`recvfrom` outcomes (return value, errno after the call).  Returns the
(return value, errno) pair the loop stops at, or `none` if the trace is
exhausted while the loop keeps retrying. -/
def recv_retry : List (Int × Int) → Option (Int × Int)
  | [] => Option.none
  | (r, e) :: rest =>
    if r < 0 ∧ e = -EINTR then recv_retry rest else Option.some (r, e)

/-- Observable outcome of one `socket_read` call: returned value, link
status afterwards, and whether the error-logging branch ran. -/
structure ReadOutcome where
  res : Int
  link : LinkStatus
  logged : Bool
deriving DecidableEq, Repr

/-- `socket_read`, driven by a `recvfrom` outcome trace, the
`rx_drop_ratio` test knob with the `rand() % 100` draw, the
`check_link_status` flag and the current link status.  `none` models an
execution whose trace never leaves the retry loop. -/
def socket_read (trace : List (Int × Int)) (rxDropPct randPct : Nat)
    (check : Bool) (link : LinkStatus) : Option ReadOutcome :=
  match recv_retry trace with
  | Option.none => Option.none
  | Option.some (readlen, e) =>
    if readlen > 0 then
      if rxDropPct ≠ 0 ∧ randPct % 100 < rxDropPct then
        Option.some { res := -EAGAIN, link := link, logged := false }
      else
        Option.some { res := readlen, link := link, logged := false }
    else if readlen = 0 then
      Option.some { res := 0, link := link, logged := false }
    else
      if ARSDK_WOULD_BLOCK e = false ∧ (check = false ∨ link = LinkStatus.ok)
      then
        Option.some { res := -e, link := if check then LinkStatus.ko else link,
                      logged := true }
      else
        Option.some { res := -e, link := link, logged := false }

/-! ## Helper lemmas about the decode loop -/

theorem processRxbufLoop_done (fuel : Nat) (rxbuf : List Nat)
    (rxlen rxoff : Nat) (hf : 0 < fuel) (h : ¬ rxoff < rxlen) :
    processRxbufLoop fuel rxbuf rxlen rxoff = ([], RxResult.ok) := by
  cases fuel with
  | zero => omega
  | succ n => simp [processRxbufLoop, h]

/-- A receive buffer holding a valid empty frame followed by a header
whose size field is `2 ^ 32 - 7`: at offset 7 the `uint32_t` sum
`rxoff + size` wraps to 0 and passes the bounds check. -/
def wrapBuf : List Nat :=
  [1, 2, 3, 7, 0, 0, 0,
   4, 5, 6, 249, 255, 255, 255]

/-- C1: refuted on the code.  For the 14-byte buffer `wrapBuf`, whose
second header carries the size field `4294967289 = 2 ^ 32 - 7`, the
bounds check `rxoff + size > rxlen` wraps modulo `2 ^ 32` and passes,
so the decoder forwards a frame whose payload view starts at offset 14
and has length `4294967282`, reaching far past the end of the
buffer. -/
theorem process_rxbuf_wrap_forwards_oob :
    (process_rxbuf wrapBuf 14).1.get? 1 =
      Option.some
        { type := 4, id := 5, seq := 6, payloadOff := 14,
          payloadLen := 4294967282, dataNull := false } ∧
    wrapBuf.length < 14 + 4294967282 := by decide

/-- C3: refuted on the code.  On the buffer `wrapBuf` the decode loop
never terminates: the offset advance wraps modulo `2 ^ 32` and the
loop revisits offsets 0 and 7 forever, so for every amount of fuel the
loop is still running. -/
theorem process_rxbuf_wrap_nonterminating :
    ∀ fuel, (processRxbufLoop fuel wrapBuf 14 0).2 = RxResult.outOfFuel ∧
      (processRxbufLoop fuel wrapBuf 14 7).2 = RxResult.outOfFuel := by
  intro fuel
  induction fuel with
  | zero => exact ⟨rfl, rfl⟩
  | succ n ih => exact ⟨ih.2, ih.1⟩

/-- C4: refuted on the code.  The retry condition of `socket_read`
compares `errno` with `-EINTR`, which no positive errno value ever
equals, so an interrupted `recvfrom` is not retried: on the trace
where the first call fails with `EINTR` and the second would succeed
with 42 bytes, the loop stops at the first outcome and `socket_read`
returns `-EINTR` to the caller (logging the error and setting the link
status to KO on the way). -/
theorem socket_read_eintr_not_retried :
    recv_retry [(-1, EINTR), (42, 0)] = Option.some (-1, EINTR) ∧
    socket_read [(-1, EINTR), (42, 0)] 0 0 true LinkStatus.ok =
      Option.some { res := -EINTR, link := LinkStatus.ko, logged := true } := by
  decide

/-- C5: a write that returns a non-negative byte count strictly below
the computed frame size makes `send_data` return `-EAGAIN` (a negative
code) and log the partial-write error, leaving link status and the
`tx_fail` counter untouched, whatever the current link status is. -/
theorem send_data_short_write_is_error (extraHdrLen payloadLen : Nat)
    (link : LinkStatus) (txFail : Nat) (writelen : Int)
    (h0 : 0 ≤ writelen)
    (hlt : writelen.toNat < send_frame_size extraHdrLen payloadLen) :
    arsdk_transport_net_send_data true true extraHdrLen payloadLen writelen
        link txFail =
      { res := -EAGAIN, link := link, txFail := txFail,
        log := SendLog.errShortWrite } ∧
    -EAGAIN < (0 : Int) := by
  have hsz : send_frame_size extraHdrLen payloadLen < U32 := by
    unfold send_frame_size
    exact Nat.mod_lt _ (by decide)
  have hne : writelen.toNat % U32 ≠ send_frame_size extraHdrLen payloadLen := by
    rw [Nat.mod_eq_of_lt (lt_trans hlt hsz)]
    omega
  have hnneg : ¬ writelen < 0 := by omega
  refine ⟨?_, by decide⟩
  simp [arsdk_transport_net_send_data, send_result_handling, hnneg, hne]

theorem send_data_short_write_is_error_witness :
    (arsdk_transport_net_send_data true true 0 5 3 LinkStatus.ok 0 =
      { res := -EAGAIN, link := LinkStatus.ok, txFail := 0,
        log := SendLog.errShortWrite } ∧
    -EAGAIN < (0 : Int)) ∧
    (arsdk_transport_net_send_data true true 0 5 3 LinkStatus.ko 4 =
      { res := -EAGAIN, link := LinkStatus.ko, txFail := 4,
        log := SendLog.errShortWrite } ∧
    -EAGAIN < (0 : Int)) :=
  ⟨send_data_short_write_is_error 0 5 LinkStatus.ok 0 3 (by decide) (by decide),
   send_data_short_write_is_error 0 5 LinkStatus.ko 4 3 (by decide) (by decide)⟩

/-- C6: a write failing with `-ENOBUFS` makes `send_data` increment
the `tx_fail` counter, keep the link status, log only a warning and
return success 0; and once the counter is positive, a subsequent write
of the full frame size resets the counter to 0 and logs the recovery
message. -/
theorem send_data_enobufs_drop_and_recovery (extraHdrLen payloadLen : Nat)
    (link : LinkStatus) (txFail : Nat) :
    arsdk_transport_net_send_data true true extraHdrLen payloadLen (-ENOBUFS)
        link txFail =
      { res := 0, link := link, txFail := txFail + 1,
        log := SendLog.warnDrop } ∧
    (0 < txFail →
      arsdk_transport_net_send_data true true extraHdrLen payloadLen
          ((send_frame_size extraHdrLen payloadLen : Nat) : Int) link txFail =
        { res := 0, link := link, txFail := 0,
          log := SendLog.infoRecovery }) := by
  have hsz : send_frame_size extraHdrLen payloadLen < U32 := by
    unfold send_frame_size
    exact Nat.mod_lt _ (by decide)
  constructor
  · simp [arsdk_transport_net_send_data, send_result_handling, ENOBUFS]
  · intro hpos
    have hnneg : ¬ ((send_frame_size extraHdrLen payloadLen : Nat) : Int) < 0 := by
      omega
    have htn : (((send_frame_size extraHdrLen payloadLen : Nat) : Int)).toNat %
        U32 = send_frame_size extraHdrLen payloadLen := by
      rw [Int.toNat_natCast]
      exact Nat.mod_eq_of_lt hsz
    simp [arsdk_transport_net_send_data, send_result_handling, hnneg, htn,
      Nat.mod_eq_of_lt hsz, hpos]

theorem send_data_enobufs_drop_and_recovery_witness :
    (arsdk_transport_net_send_data true true 0 3 (-ENOBUFS) LinkStatus.ok 2 =
      { res := 0, link := LinkStatus.ok, txFail := 3,
        log := SendLog.warnDrop }) ∧
    (arsdk_transport_net_send_data true true 0 3
        ((send_frame_size 0 3 : Nat) : Int) LinkStatus.ok 2 =
      { res := 0, link := LinkStatus.ok, txFail := 0,
        log := SendLog.infoRecovery }) :=
  ⟨(send_data_enobufs_drop_and_recovery 0 3 LinkStatus.ok 2).1,
   (send_data_enobufs_drop_and_recovery 0 3 LinkStatus.ok 2).2 (by decide)⟩

/-- C7: two consecutive genuine write failures (negative, neither
would-block nor `-ENOBUFS`) starting from link status OK: the first
call logs the error and transitions the link to KO; the second call,
finding the link already KO, neither logs nor sets the status again,
so exactly one transition and one logged error occur. -/
theorem send_data_link_ko_logged_once (extraHdrLen payloadLen txFail : Nat)
    (e1 e2 : Int) (h1n : e1 < 0) (h2n : e2 < 0)
    (h1b : e1 ≠ -ENOBUFS) (h2b : e2 ≠ -ENOBUFS)
    (h1w : ARSDK_WOULD_BLOCK (-e1) = false)
    (h2w : ARSDK_WOULD_BLOCK (-e2) = false) :
    arsdk_transport_net_send_data true true extraHdrLen payloadLen e1
        LinkStatus.ok txFail =
      { res := e1, link := LinkStatus.ko, txFail := txFail,
        log := SendLog.errSendmsg } ∧
    arsdk_transport_net_send_data true true extraHdrLen payloadLen e2
        LinkStatus.ko txFail =
      { res := e2, link := LinkStatus.ko, txFail := txFail,
        log := SendLog.quiet } := by
  constructor
  · simp [arsdk_transport_net_send_data, send_result_handling, h1n, h1b, h1w]
  · simp [arsdk_transport_net_send_data, send_result_handling, h2n, h2b, h2w]

theorem send_data_link_ko_logged_once_witness :
    arsdk_transport_net_send_data true true 0 4 (-EPIPE) LinkStatus.ok 0 =
      { res := -EPIPE, link := LinkStatus.ko, txFail := 0,
        log := SendLog.errSendmsg } ∧
    arsdk_transport_net_send_data true true 0 4 (-EPIPE) LinkStatus.ko 0 =
      { res := -EPIPE, link := LinkStatus.ko, txFail := 0,
        log := SendLog.quiet } :=
  send_data_link_ko_logged_once 0 4 0 (-EPIPE) (-EPIPE) (by decide) (by decide)
    (by decide) (by decide) (by decide) (by decide)

/-- C8: each acknowledgment transport-ID constant equals its base
reliable or high-priority ID plus half the namespace size (128 for the
256-value namespace, 16 for the 32-value constrained one); the
acknowledgment IDs are pairwise distinct and collide with no primary
ID; in particular the ack ID for `D2C_CMD_WITHACK = 126` is 254. -/
theorem transport_ack_ids_consistent :
    ARSDK_TRANSPORT_ID_ACKOFF = 128 ∧
    ARSDK_TRANSPORT_ID_ACKOFF_BLE = 16 ∧
    ARSDK_TRANSPORT_ID_C2D_CMD_ACK =
      ARSDK_TRANSPORT_ID_D2C_CMD_WITHACK + 128 ∧
    ARSDK_TRANSPORT_ID_C2D_CMD_ACK_BLE =
      ARSDK_TRANSPORT_ID_D2C_CMD_WITHACK_BLE + 16 ∧
    ARSDK_TRANSPORT_ID_D2C_CMD_ACK =
      ARSDK_TRANSPORT_ID_C2D_CMD_WITHACK + 128 ∧
    ARSDK_TRANSPORT_ID_D2C_CMD_HIGHPRI_ACK =
      ARSDK_TRANSPORT_ID_C2D_CMD_HIGHPRI + 128 ∧
    ARSDK_TRANSPORT_ID_D2C_CMD_ACK_BLE =
      ARSDK_TRANSPORT_ID_C2D_CMD_WITHACK + 16 ∧
    ARSDK_TRANSPORT_ID_D2C_CMD_HIGHPRI_ACK_BLE =
      ARSDK_TRANSPORT_ID_C2D_CMD_HIGHPRI + 16 ∧
    ARSDK_TRANSPORT_ID_C2D_CMD_ACK = 254 ∧
    (∀ a ∈ ackTransportIds, ∀ p ∈ primaryTransportIds, a ≠ p) ∧
    ackTransportIds.Nodup := by decide

/-- Three well-formed frames of sizes 10, 7 and 23 packed
back-to-back in one 40-byte datagram. -/
def mfBuf : List Nat :=
  [1, 10, 100, 10, 0, 0, 0, 170, 187, 204,
   2, 11, 101, 7, 0, 0, 0,
   3, 12, 102, 23, 0, 0, 0,
   1, 2, 3, 4, 5, 6, 7, 8, 9, 10, 11, 12, 13, 14, 15, 16]

/-- C9: the 40-byte buffer `mfBuf`, holding frames of sizes 10, 7 and
23 back-to-back, decodes to exactly three frames in buffer order with
payload lengths 3, 0 and 16, each frame's header fields coming from
its own 7 header bytes, and each payload view covering exactly its own
payload bytes. -/
theorem process_rxbuf_multiframe :
    process_rxbuf mfBuf 40 =
      ([{ type := 1, id := 10, seq := 100, payloadOff := 7,
          payloadLen := 3, dataNull := false },
        { type := 2, id := 11, seq := 101, payloadOff := 17,
          payloadLen := 0, dataNull := true },
        { type := 3, id := 12, seq := 102, payloadOff := 24,
          payloadLen := 16, dataNull := false }],
       RxResult.ok) ∧
    frameView mfBuf
      { type := 1, id := 10, seq := 100, payloadOff := 7,
        payloadLen := 3, dataNull := false } = [170, 187, 204] ∧
    frameView mfBuf
      { type := 2, id := 11, seq := 101, payloadOff := 17,
        payloadLen := 0, dataNull := true } = [] ∧
    frameView mfBuf
      { type := 3, id := 12, seq := 102, payloadOff := 24,
        payloadLen := 16, dataNull := false } =
      [1, 2, 3, 4, 5, 6, 7, 8, 9, 10, 11, 12, 13, 14, 15, 16] := by decide

/-- C10: every frame the decode loop forwards has a `NULL` payload
data pointer exactly when its payload length is zero, i.e. exactly
when its wire size field was `ARSDK_FRAME_HEADER_SIZE = 7` (the
validity check enforces `size >= 7` and the payload length is
`size - 7`): the decoder turns the zero-length view into the absent
(null-pointer) representation, never a non-null pointer to zero
bytes. -/
theorem process_rxbuf_null_iff_empty :
    ∀ (fuel : Nat) (rxbuf : List Nat) (rxlen rxoff : Nat) (f : Frame),
      f ∈ (processRxbufLoop fuel rxbuf rxlen rxoff).1 →
      (f.dataNull = true ↔ f.payloadLen = 0) := by
  intro fuel
  induction fuel with
  | zero =>
    intro rxbuf rxlen rxoff f hf
    simp [processRxbufLoop] at hf
  | succ n ih =>
    intro rxbuf rxlen rxoff f hf
    simp only [processRxbufLoop] at hf
    split at hf
    · split at hf
      · simp at hf
      · split at hf
        · simp at hf
        · simp only [List.mem_cons] at hf
          rcases hf with hf | hf
          · subst hf
            simp
          · exact ih _ _ _ _ hf
    · simp at hf

theorem process_rxbuf_null_iff_empty_witness :
    (Frame.mk 2 11 101 17 0 true).dataNull = true ↔
      (Frame.mk 2 11 101 17 0 true).payloadLen = 0 :=
  process_rxbuf_null_iff_empty 41 mfBuf 40 0
    (Frame.mk 2 11 101 17 0 true) (by decide)

/-- C2: encode-then-decode round trip.  For every header with
`type`, `id`, `seq` below 256 and every payload (no extra header) with
`7 + length` representable in `uint32_t`, decoding the byte stream
built by the send path (type, id, seq, little-endian size
`7 + length`, then the payload) yields exactly one frame whose header
fields equal the originals and whose payload view is exactly the
original payload bytes. -/
theorem send_then_decode_roundtrip (t i s : Nat) (p : List Nat)
    (ht : t < 256) (hi : i < 256) (hs : s < 256)
    (hn : p.length + 7 < U32) :
    process_rxbuf (arsdk_transport_net_send_wire t i s [] p)
        (arsdk_transport_net_send_wire t i s [] p).length =
      ([{ type := t, id := i, seq := s, payloadOff := 7,
          payloadLen := p.length, dataNull := p.length == 0 }],
       RxResult.ok) ∧
    frameView (arsdk_transport_net_send_wire t i s [] p)
      { type := t, id := i, seq := s, payloadOff := 7,
        payloadLen := p.length, dataNull := p.length == 0 } = p := by
  have hU : 7 + p.length < 4294967296 := by
    simp only [U32] at hn
    omega
  have hU32 : 7 + p.length < U32 := by
    simp only [U32]
    omega
  have hS : send_frame_size 0 p.length = 7 + p.length := by
    simp only [send_frame_size, ARSDK_FRAME_HEADER_SIZE, U32, Nat.add_zero]
    omega
  have hlen : (arsdk_transport_net_send_wire t i s [] p).length =
      7 + p.length := by
    simp [arsdk_transport_net_send_wire, send_headerbuf]
    omega
  have b0 : byteAt (arsdk_transport_net_send_wire t i s [] p) 0 = t := by
    have h : byteAt (arsdk_transport_net_send_wire t i s [] p) 0 =
        t % 256 % 256 := rfl
    omega
  have b1 : byteAt (arsdk_transport_net_send_wire t i s [] p) (0 + 1) = i := by
    have h : byteAt (arsdk_transport_net_send_wire t i s [] p) (0 + 1) =
        i % 256 % 256 := rfl
    omega
  have b2 : byteAt (arsdk_transport_net_send_wire t i s [] p) (0 + 2) = s := by
    have h : byteAt (arsdk_transport_net_send_wire t i s [] p) (0 + 2) =
        s % 256 % 256 := rfl
    omega
  have b3 : byteAt (arsdk_transport_net_send_wire t i s [] p) (0 + 3) =
      (7 + p.length) % 256 := by
    have h : byteAt (arsdk_transport_net_send_wire t i s [] p) (0 + 3) =
        send_frame_size 0 p.length % 256 % 256 := rfl
    rw [h, hS]
    omega
  have b4 : byteAt (arsdk_transport_net_send_wire t i s [] p) (0 + 4) =
      (7 + p.length) / 256 % 256 := by
    have h : byteAt (arsdk_transport_net_send_wire t i s [] p) (0 + 4) =
        send_frame_size 0 p.length / 256 % 256 % 256 := rfl
    rw [h, hS]
    omega
  have b5 : byteAt (arsdk_transport_net_send_wire t i s [] p) (0 + 5) =
      (7 + p.length) / 65536 % 256 := by
    have h : byteAt (arsdk_transport_net_send_wire t i s [] p) (0 + 5) =
        send_frame_size 0 p.length / 65536 % 256 % 256 := rfl
    rw [h, hS]
    omega
  have b6 : byteAt (arsdk_transport_net_send_wire t i s [] p) (0 + 6) =
      (7 + p.length) / 16777216 % 256 := by
    have h : byteAt (arsdk_transport_net_send_wire t i s [] p) (0 + 6) =
        send_frame_size 0 p.length / 16777216 % 256 % 256 := rfl
    rw [h, hS]
    omega
  have hsize : sizeOfBytes
      (byteAt (arsdk_transport_net_send_wire t i s [] p) (0 + 3))
      (byteAt (arsdk_transport_net_send_wire t i s [] p) (0 + 4))
      (byteAt (arsdk_transport_net_send_wire t i s [] p) (0 + 5))
      (byteAt (arsdk_transport_net_send_wire t i s [] p) (0 + 6)) =
      7 + p.length := by
    rw [b3, b4, b5, b6,
      sizeOfBytes_eq_sum _ _ _ _ (Nat.mod_lt _ (by decide))
        (Nat.mod_lt _ (by decide)) (Nat.mod_lt _ (by decide))
        (Nat.mod_lt _ (by decide))]
    omega
  constructor
  · simp only [process_rxbuf]
    rw [hlen]
    simp only [processRxbufLoop]
    rw [hsize, b0, b1, b2]
    have c1 : (0 + ARSDK_FRAME_HEADER_SIZE) % U32 = 7 := by decide
    rw [c1]
    have c2 : 7 + p.length - ARSDK_FRAME_HEADER_SIZE = p.length := by
      simp only [ARSDK_FRAME_HEADER_SIZE]
      omega
    rw [c2]
    have hpos : 0 < 7 + p.length := by omega
    rw [if_pos hpos]
    have hnc1 : ¬ 7 > 7 + p.length := by omega
    rw [if_neg hnc1]
    have hnc2 : ¬ (7 + p.length < ARSDK_FRAME_HEADER_SIZE ∨
        (0 + (7 + p.length)) % U32 > 7 + p.length) := by
      simp only [ARSDK_FRAME_HEADER_SIZE, U32]
      omega
    rw [if_neg hnc2]
    rw [Nat.mod_eq_of_lt hU32]
    rw [processRxbufLoop_done (7 + p.length)
      (arsdk_transport_net_send_wire t i s [] p) (7 + p.length)
      (7 + p.length) (by omega) (by omega)]
  · have hdrop : (arsdk_transport_net_send_wire t i s [] p).drop 7 = p := rfl
    show ((arsdk_transport_net_send_wire t i s [] p).drop 7).take p.length = p
    rw [hdrop]
    exact List.take_length p

theorem send_then_decode_roundtrip_witness :
    process_rxbuf (arsdk_transport_net_send_wire 1 2 3 [] [9, 8, 7])
        (arsdk_transport_net_send_wire 1 2 3 [] [9, 8, 7]).length =
      ([{ type := 1, id := 2, seq := 3, payloadOff := 7,
          payloadLen := 3, dataNull := false }], RxResult.ok) ∧
    frameView (arsdk_transport_net_send_wire 1 2 3 [] [9, 8, 7])
      { type := 1, id := 2, seq := 3, payloadOff := 7,
        payloadLen := 3, dataNull := false } = [9, 8, 7] :=
  send_then_decode_roundtrip 1 2 3 [9, 8, 7] (by decide) (by decide)
    (by decide) (by decide)
